import Mathlib

/-!
Shallow embedding of `src/gpio_drivers.c` / `src/include/gpio_drivers.h`
(ESP32 GPIO driver).  The platform GPIO backend (ESP-IDF primitives
`gpio_config`, `gpio_set_level`, `gpio_get_level`, `gpio_isr_handler_add`,
`gpio_install_isr_service`, `gpio_intr_enable`, `gpio_intr_disable`) is
modelled as an explicit hardware state together with a trace of the backend
calls performed.  Calls wrapped in `ESP_ERROR_CHECK` abort the program on
failure, so they are modelled as always succeeding; `gpio_set_level`, whose
result the driver inspects nowhere, is modelled as fallible through a
per-pin error table so that error propagation can be stated.
-/

namespace GpioDrivers

/-- `gpio_state_t` from gpio_drivers.h: GPIO_STATE_LOW = 0, GPIO_STATE_HIGH = 1. -/
inductive GpioState
  | low
  | high
deriving DecidableEq, Repr

/-- The `(uint32_t)state` cast used by `gpio_write`. -/
def GpioState.toNat : GpioState → Nat
  | .low => 0
  | .high => 1

/-- esp_err_t success code ESP_OK = 0. -/
def espOk : Int := 0

/-- esp_err_t generic failure code ESP_FAIL = -1. -/
def espFail : Int := -1

/-- `gpio_mode_t` as discriminated by the switch in `gpio_init_impl`:
GPIO_MODE_INPUT, GPIO_MODE_OUTPUT, and every other value (the default
branch of the switch). -/
inductive GpioMode
  | input
  | output
  | other (n : Nat)
deriving DecidableEq, Repr

/-- Values a function-pointer field of `gpio_t` can hold: the address of one
of the driver functions, or an arbitrary (possibly uninitialized) address. -/
inductive FnPtr
  | gpioRead
  | gpioWrite
  | gpioToggle
  | unknown (addr : Nat)
deriving DecidableEq, Repr

/-- `gpio_t` from gpio_drivers.h.  Pointers (`next`, `isr_handler`,
`isr_handler_arg`) are modelled as opaque addresses, `none` standing for
NULL; the unused `_config` field is an opaque value. -/
structure Gpio where
  next : Option Nat
  pin : Nat
  act_state : GpioState
  config : Nat
  mode : GpioMode
  isr_handler : Option Nat
  isr_handler_arg : Option Nat
  init_fp : FnPtr
  set_state : FnPtr
  get_state : FnPtr
  toggle : FnPtr
deriving DecidableEq, Repr

/-- One call into the platform GPIO backend. -/
inductive BackendCall
  | config (pin : Nat) (mode : GpioMode) (pullUp pullDown negEdge : Bool)
  | isrHandlerAdd (pin : Nat) (handler : Nat) (arg : Option Nat)
  | setLevel (pin : Nat) (level : Nat)
  | getLevel (pin : Nat)
  | installIsrService (flags : Nat)
  | intrEnable (pin : Nat)
  | intrDisable (pin : Nat)
deriving DecidableEq, Repr

/-- State of the platform backend: line levels, the error each
`gpio_set_level` call would report, the ISR dispatch table
(pin, handler, handler argument), how many times the ISR service
installation primitive ran, the per-pin interrupt mask, and the trace of
backend calls performed so far. -/
structure HwState where
  level : Nat → GpioState
  setLevelErr : Nat → Int
  isrTable : List (Nat × Nat × Option Nat)
  installCount : Nat
  intrEnabled : Nat → Bool
  trace : List BackendCall

/-- Platform `gpio_set_level`: reports the per-pin error code and, on
success, drives the line to the given level. -/
def gpio_set_level (hw : HwState) (pin : Nat) (lvl : Nat) : Int × HwState :=
  let err := hw.setLevelErr pin
  let hw' := { hw with trace := hw.trace ++ [.setLevel pin lvl] }
  if err = espOk then
    (err, { hw' with
            level := fun p => if p = pin then (if lvl = 0 then .low else .high)
                              else hw'.level p })
  else (err, hw')

/-- Platform `gpio_get_level`: returns the current line level. -/
def gpio_get_level (hw : HwState) (pin : Nat) : GpioState × HwState :=
  (hw.level pin, { hw with trace := hw.trace ++ [.getLevel pin] })

/-- Platform `gpio_install_isr_service` (ESP_ERROR_CHECK-wrapped, so
modelled as always succeeding). -/
def gpio_install_isr_service (hw : HwState) (flags : Nat) : HwState :=
  { hw with installCount := hw.installCount + 1,
            trace := hw.trace ++ [.installIsrService flags] }

/-- Platform `gpio_isr_handler_add` (ESP_ERROR_CHECK-wrapped): records the
(pin, handler, argument) association in the dispatch table. -/
def gpio_isr_handler_add (hw : HwState) (pin : Nat) (handler : Nat)
    (arg : Option Nat) : HwState :=
  { hw with isrTable := hw.isrTable ++ [(pin, handler, arg)],
            trace := hw.trace ++ [.isrHandlerAdd pin handler arg] }

/-- Platform `gpio_intr_enable`: unmasks edge interrupts on the pin. -/
def gpio_intr_enable (hw : HwState) (pin : Nat) : Int × HwState :=
  (espOk, { hw with
            intrEnabled := fun p => if p = pin then true else hw.intrEnabled p,
            trace := hw.trace ++ [.intrEnable pin] })

/-- Platform `gpio_intr_disable`: masks edge interrupts on the pin. -/
def gpio_intr_disable (hw : HwState) (pin : Nat) : Int × HwState :=
  (espOk, { hw with
            intrEnabled := fun p => if p = pin then false else hw.intrEnabled p,
            trace := hw.trace ++ [.intrDisable pin] })

/-- `gpio_set_config_output` (gpio_drivers.c lines 26-39): one
`gpio_config` call (output, pulls disabled, interrupts disabled), then
returns ESP_OK. -/
def gpio_set_config_output (hw : HwState) (pin : Nat) : Int × HwState :=
  (espOk, { hw with trace := hw.trace ++ [.config pin .output false false false] })

/-- `gpio_set_config_input` (gpio_drivers.c lines 41-60): one `gpio_config`
call (input, pull-up enabled, negative-edge trigger); if the handler is
NULL it returns ESP_OK at once, otherwise it registers the handler with
`gpio_isr_handler_add` and returns ESP_OK. -/
def gpio_set_config_input (hw : HwState) (pin : Nat)
    (isrHandler : Option Nat) (isrHandlerArg : Option Nat) : Int × HwState :=
  let hw := { hw with trace := hw.trace ++ [.config pin .input true false true] }
  match isrHandler with
  | none => (espOk, hw)
  | some h => (espOk, gpio_isr_handler_add hw pin h isrHandlerArg)

/-- `gpio_write` (gpio_drivers.c lines 62-66): calls `gpio_set_level`,
discards its result, and returns ESP_OK.  The `gpio_t` object is returned
unchanged: the function never touches `_act_state` or any other field. -/
def gpio_write (hw : HwState) (self : Gpio) (state : GpioState) :
    Int × Gpio × HwState :=
  let (_, hw) := gpio_set_level hw self.pin state.toNat
  (espOk, self, hw)

/-- `gpio_read` (gpio_drivers.c lines 68-71): returns `gpio_get_level` of
the pin. -/
def gpio_read (hw : HwState) (self : Gpio) : GpioState × HwState :=
  gpio_get_level hw self.pin

/-- `gpio_toggle` (gpio_drivers.c lines 73-77): reads the line with
`gpio_read` and writes LOW/HIGH flipped from that fresh read. -/
def gpio_toggle (hw : HwState) (self : Gpio) : Gpio × HwState :=
  let (state, hw) := gpio_read hw self
  let (_, self, hw) :=
    gpio_write hw self (if state = GpioState.low then .high else .low)
  (self, hw)

/-- The driver's static state (gpio_drivers.c lines 22-24): the
`isr_service_installed` flag and the `s_gpio_instance` pointer, together
with the hardware backend state. -/
structure Sys where
  hw : HwState
  isr_service_installed : Bool
  s_gpio_instance : Option Gpio

/-- `gpio_init_impl` (gpio_drivers.c lines 80-115): stores `self` in
`s_gpio_instance`, assigns the `get_state` and `set_state` function
pointers (the `toggle` assignment on line 85 is commented out), switches on
`_mode` — input: `gpio_set_config_input(pin, isr_handler, NULL)`; output:
`gpio_set_config_output(pin)` then `gpio_write(self, _act_state)`; default:
logs an error — and finally installs the ISR service if the
`isr_service_installed` flag is still false, setting the flag. -/
def gpio_init_impl (s : Sys) (self : Gpio) : Gpio × Sys :=
  let self := { self with get_state := FnPtr.gpioRead,
                          set_state := FnPtr.gpioWrite }
  let hw :=
    match self.mode with
    | .input => (gpio_set_config_input s.hw self.pin self.isr_handler none).2
    | .output =>
        let (_, hw) := gpio_set_config_output s.hw self.pin
        let (_, _, hw) := gpio_write hw self self.act_state
        hw
    | .other _ => s.hw
  if s.isr_service_installed then
    ⟨self, hw, s.isr_service_installed, some self⟩
  else
    ⟨self, gpio_install_isr_service hw 0, true, some self⟩

/-- `gpio_disable_isr` (gpio_drivers.c lines 117-120). -/
def gpio_disable_isr (hw : HwState) (self : Gpio) : Int × HwState :=
  gpio_intr_disable hw self.pin

/-- `gpio_enable_isr` (gpio_drivers.c lines 122-125). -/
def gpio_enable_isr (hw : HwState) (self : Gpio) : Int × HwState :=
  gpio_intr_enable hw self.pin

/-- Logical inverse of a level, as the spec's `invert`. -/
def invert (s : GpioState) : GpioState :=
  if s = GpioState.low then .high else .low

/-- A concrete backend state for evaluations: all lines low, every
`gpio_set_level` succeeding, empty tables and trace. -/
def hw0 : HwState :=
  { level := fun _ => .low, setLevelErr := fun _ => espOk,
    isrTable := [], installCount := 0,
    intrEnabled := fun _ => false, trace := [] }

/-- A concrete `gpio_t` value with given pin, initial state, mode and ISR
fields; the function-pointer fields start at arbitrary addresses, as for a
stack object whose fields `gpio_init_impl` has not yet assigned. -/
def mkGpio (pin : Nat) (st : GpioState) (m : GpioMode)
    (h a : Option Nat) : Gpio :=
  { next := none, pin := pin, act_state := st, config := 0, mode := m,
    isr_handler := h, isr_handler_arg := a,
    init_fp := .unknown 10, set_state := .unknown 11,
    get_state := .unknown 12, toggle := .unknown 13 }

/-- Driver static state at program start: flag false, instance NULL. -/
def sys0 : Sys :=
  { hw := hw0, isr_service_installed := false, s_gpio_instance := none }

/-! ## Helper lemmas -/

/-- The exact backend-call suffix `gpio_toggle` emits: a fresh read of the
line followed by a write of the flipped read value. -/
theorem toggle_trace_eq (hw : HwState) (g : Gpio) :
    (gpio_toggle hw g).2.trace
      = hw.trace ++ [.getLevel g.pin,
                     .setLevel g.pin (invert (hw.level g.pin)).toNat] := by
  unfold gpio_toggle gpio_read gpio_get_level gpio_write gpio_set_level invert
  by_cases h : hw.setLevelErr g.pin = espOk <;>
    simp [h, List.append_assoc]

/-! ## C1 -/

def c1_gpio : Gpio := mkGpio 5 GpioState.low GpioMode.output none none

def c1_hw : HwState :=
  { hw0 with level := fun p => if p = 5 then .high else .low }

/-- C1 counterexample: on an output pin whose commanded (`_act_state`)
level is Low while the wire is externally forced High, `gpio_toggle`
performs a fresh hardware read and writes level 0 (Low), whereas the claim
demands a write of invert(commanded_state) = High (level 1) with no
hardware read.  The claim as stated is false on the code. -/
theorem C1_counterexample :
    (gpio_toggle c1_hw c1_gpio).2.trace
        = [.getLevel 5, .setLevel 5 0]
      ∧ (invert c1_gpio.act_state).toNat = 1 := by
  constructor
  · decide
  · decide

/-- C1 amended: for every pin, `gpio_toggle` derives the new level from a
fresh hardware read of the line (`gpio_read`) and calls `gpio_write` with
the logical inverse of that read value; the `_act_state` (commanded-state)
field plays no role. -/
theorem C1_toggle_uses_hardware_read (hw : HwState) (g : Gpio) :
    (gpio_toggle hw g).2.trace
      = hw.trace ++ [.getLevel g.pin,
                     .setLevel g.pin (invert (hw.level g.pin)).toNat] :=
  toggle_trace_eq hw g

/-! ## C2 -/

def c2_gpio : Gpio := mkGpio 4 GpioState.low GpioMode.output none none

/-- C2 counterexample: a successful `gpio_write` of High on an output pin
whose `_act_state` is Low returns ESP_OK but leaves `_act_state` at Low —
the commanded-state field is not updated, so the claim as stated is false
on the code. -/
theorem C2_counterexample :
    (gpio_write hw0 c2_gpio GpioState.high).1 = espOk
      ∧ (gpio_write hw0 c2_gpio GpioState.high).2.1.act_state
          ≠ GpioState.high := by
  constructor
  · decide
  · decide

/-- C2 amended: for every pin and state s, when the platform level-write
succeeds, `gpio_write` returns ESP_OK and commits s to the hardware line —
a subsequent `gpio_read` returns s — but it leaves the `gpio_t` object,
in particular `_act_state`, completely unchanged. -/
theorem C2_write_commits_line_only (hw : HwState) (g : Gpio) (s : GpioState)
    (h : hw.setLevelErr g.pin = espOk) :
    (gpio_write hw g s).1 = espOk
      ∧ (gpio_read (gpio_write hw g s).2.2 (gpio_write hw g s).2.1).1 = s
      ∧ (gpio_write hw g s).2.1 = g := by
  refine ⟨rfl, ?_, rfl⟩
  unfold gpio_read gpio_get_level gpio_write gpio_set_level
  cases s <;> simp [h, GpioState.toNat]

/-- Witness for C2: the amended theorem applied at pin 4, state High, on
the all-succeeding backend. -/
theorem C2_witness :
    (gpio_write hw0 c2_gpio GpioState.high).1 = espOk
      ∧ (gpio_read (gpio_write hw0 c2_gpio GpioState.high).2.2
            (gpio_write hw0 c2_gpio GpioState.high).2.1).1 = GpioState.high
      ∧ (gpio_write hw0 c2_gpio GpioState.high).2.1 = c2_gpio :=
  C2_write_commits_line_only hw0 c2_gpio GpioState.high (by decide)

/-! ## C3 -/

def c3_gpio : Gpio := mkGpio 7 GpioState.low GpioMode.input none none

/-- C3 counterexample: `gpio_write` on a pin configured as Input (wrong
mode for a write) does not return a wrong-mode error — it returns ESP_OK —
and it does perform a backend call, driving the line High.  The claim as
stated is false on the code. -/
theorem C3_counterexample :
    c3_gpio.mode = GpioMode.input
      ∧ (gpio_write hw0 c3_gpio GpioState.high).1 = espOk
      ∧ (gpio_write hw0 c3_gpio GpioState.high).2.2.level 7 = GpioState.high
      ∧ (gpio_write hw0 c3_gpio GpioState.high).2.2.trace
          = [.setLevel 7 1] := by
  refine ⟨by decide, by decide, by decide, by decide⟩

/-- C3 amended: none of `gpio_write`, `gpio_toggle`, `gpio_enable_isr`,
`gpio_disable_isr` inspects the pin's mode: for every pin, whatever its
mode, each performs its backend call unconditionally and none ever returns
a wrong-mode error (the fallible ones return ESP_OK). -/
theorem C3_no_mode_check (hw : HwState) (g : Gpio) (s : GpioState) :
    (gpio_write hw g s).1 = espOk
      ∧ (gpio_write hw g s).2.2.trace = hw.trace ++ [.setLevel g.pin s.toNat]
      ∧ (gpio_toggle hw g).2.trace
          = hw.trace ++ [.getLevel g.pin,
                         .setLevel g.pin (invert (hw.level g.pin)).toNat]
      ∧ (gpio_enable_isr hw g).1 = espOk
      ∧ (gpio_enable_isr hw g).2.trace = hw.trace ++ [.intrEnable g.pin]
      ∧ (gpio_disable_isr hw g).1 = espOk
      ∧ (gpio_disable_isr hw g).2.trace = hw.trace ++ [.intrDisable g.pin] := by
  refine ⟨rfl, ?_, toggle_trace_eq hw g, rfl, rfl, rfl, rfl⟩
  unfold gpio_write gpio_set_level
  by_cases h : hw.setLevelErr g.pin = espOk <;> simp [h]

/-! ## Install-flag helper lemmas -/

/-- After any `gpio_init_impl` call the `isr_service_installed` flag is
true. -/
theorem init_impl_installed (s : Sys) (g : Gpio) :
    (gpio_init_impl s g).2.isr_service_installed = true := by
  unfold gpio_init_impl
  by_cases h : s.isr_service_installed <;> simp [h]

/-- `gpio_set_config_output` does not touch the install counter. -/
theorem set_config_output_installCount (hw : HwState) (pin : Nat) :
    (gpio_set_config_output hw pin).2.installCount = hw.installCount := rfl

/-- `gpio_set_config_input` does not touch the install counter. -/
theorem set_config_input_installCount (hw : HwState) (pin : Nat)
    (h a : Option Nat) :
    (gpio_set_config_input hw pin h a).2.installCount = hw.installCount := by
  unfold gpio_set_config_input gpio_isr_handler_add
  cases h <;> simp

/-- `gpio_write` does not touch the install counter. -/
theorem write_installCount (hw : HwState) (g : Gpio) (s : GpioState) :
    (gpio_write hw g s).2.2.installCount = hw.installCount := by
  unfold gpio_write gpio_set_level
  by_cases h : hw.setLevelErr g.pin = espOk <;> simp [h]

/-- The hardware state after the mode switch of `gpio_init_impl`, before
the install step.  Named so the install-count bookkeeping can be split off. -/
def init_impl_hw_after_switch (s : Sys) (self : Gpio) : HwState :=
  match self.mode with
  | .input => (gpio_set_config_input s.hw self.pin self.isr_handler none).2
  | .output =>
      let (_, hw) := gpio_set_config_output s.hw self.pin
      let (_, _, hw) := gpio_write hw self self.act_state
      hw
  | .other _ => s.hw

/-- The mode switch of `gpio_init_impl` leaves the install counter alone. -/
theorem init_impl_hw_after_switch_installCount (s : Sys) (g : Gpio) :
    (init_impl_hw_after_switch s g).installCount = s.hw.installCount := by
  unfold init_impl_hw_after_switch
  cases hm : g.mode with
  | input => simpa using set_config_input_installCount s.hw g.pin g.isr_handler none
  | output =>
      simp only []
      rw [show (gpio_set_config_output s.hw g.pin).2
            = { s.hw with trace := s.hw.trace
                ++ [BackendCall.config g.pin .output false false false] } from rfl]
      exact write_installCount _ g g.act_state
  | other n => rfl

/-- `gpio_init_impl` unfolded through `init_impl_hw_after_switch`. -/
theorem init_impl_eq (s : Sys) (g : Gpio) :
    gpio_init_impl s g
      = (let self := { g with get_state := FnPtr.gpioRead,
                              set_state := FnPtr.gpioWrite }
         let hw := init_impl_hw_after_switch s self
         if s.isr_service_installed then
           ⟨self, hw, s.isr_service_installed, some self⟩
         else
           ⟨self, gpio_install_isr_service hw 0, true, some self⟩) := by
  unfold gpio_init_impl init_impl_hw_after_switch
  rfl

/-- The install counter advances by one on an init call when the flag is
still false, and is untouched when the flag is already set. -/
theorem init_impl_installCount (s : Sys) (g : Gpio) :
    (gpio_init_impl s g).2.hw.installCount
      = s.hw.installCount + (if s.isr_service_installed then 0 else 1) := by
  rw [init_impl_eq]
  by_cases h : s.isr_service_installed <;>
    simp [h, gpio_install_isr_service, init_impl_hw_after_switch_installCount]

/-! ## C4 -/

def c4_gpio : Gpio := mkGpio 2 GpioState.low GpioMode.output none none

/-- C4 counterexample: configuring an Output pin (no callback anywhere in
sight) from the initial driver state triggers the platform
dispatch-service installation — the install counter goes from 0 to 1 and
the flag becomes true.  The claim that such a call never triggers the
installation is false on the code. -/
theorem C4_counterexample :
    c4_gpio.mode = GpioMode.output
      ∧ (gpio_init_impl sys0 c4_gpio).2.hw.installCount = 1
      ∧ (gpio_init_impl sys0 c4_gpio).2.isr_service_installed = true := by
  refine ⟨by decide, by decide, by decide⟩

/-- C4 amended: `gpio_init_impl` installs the dispatch service
unconditionally at the end of every call — whatever the mode (Output,
callback-less Input, or invalid) — whenever the `isr_service_installed`
flag is still false, and the flag is true after every call. -/
theorem C4_install_unconditional (s : Sys) (g : Gpio) :
    (gpio_init_impl s g).2.isr_service_installed = true
      ∧ (gpio_init_impl s g).2.hw.installCount
          = s.hw.installCount + (if s.isr_service_installed then 0 else 1) :=
  ⟨init_impl_installed s g, init_impl_installCount s g⟩

/-! ## C5 -/

/-- Fold a sequence of `gpio_init_impl` calls over the driver state. -/
def runInits (s : Sys) (gs : List Gpio) : Sys :=
  gs.foldl (fun s g => (gpio_init_impl s g).2) s

/-- Driver state at process start over a given backend state: flag false,
instance NULL. -/
def initSys (hw : HwState) : Sys :=
  { hw := hw, isr_service_installed := false, s_gpio_instance := none }

/-- Once the flag is set, a whole sequence of further init calls keeps it
set and never calls the platform install primitive again. -/
theorem runInits_installed_frozen (gs : List Gpio) (s : Sys)
    (h : s.isr_service_installed = true) :
    (runInits s gs).isr_service_installed = true
      ∧ (runInits s gs).hw.installCount = s.hw.installCount := by
  induction gs generalizing s with
  | nil => exact ⟨h, rfl⟩
  | cons g rest ih =>
      have hstep : (gpio_init_impl s g).2.hw.installCount
          = s.hw.installCount := by
        rw [init_impl_installCount, h]
        simp
      have := ih (s := (gpio_init_impl s g).2) (init_impl_installed s g)
      refine ⟨this.1, ?_⟩
      rw [show runInits s (g :: rest) = runInits (gpio_init_impl s g).2 rest
            from rfl, this.2, hstep]

/-- C5: across any sequence of init calls starting from a process-start
driver state whose install counter is zero, the platform install primitive
runs exactly once if the sequence is nonempty (zero times if empty), and
the flag ends true exactly when at least one call was made: at-most-once
installation, flag never reset, later attempts are no-ops. -/
theorem C5_install_at_most_once (hw : HwState) (gs : List Gpio)
    (h : hw.installCount = 0) :
    (runInits (initSys hw) gs).hw.installCount
        = (if gs.isEmpty then 0 else 1)
      ∧ (runInits (initSys hw) gs).isr_service_installed = !gs.isEmpty := by
  cases gs with
  | nil => exact ⟨h, rfl⟩
  | cons g rest =>
      have hstep : (gpio_init_impl (initSys hw) g).2.hw.installCount
          = hw.installCount + 1 := by
        rw [init_impl_installCount]
        simp [initSys]
      have hfrozen := runInits_installed_frozen rest
        ((gpio_init_impl (initSys hw) g).2) (init_impl_installed _ g)
      refine ⟨?_, ?_⟩
      · rw [show runInits (initSys hw) (g :: rest)
              = runInits (gpio_init_impl (initSys hw) g).2 rest from rfl,
            hfrozen.2, hstep]
        simp [h]
      · rw [show runInits (initSys hw) (g :: rest)
              = runInits (gpio_init_impl (initSys hw) g).2 rest from rfl,
            hfrozen.1]
        rfl

def c5_g1 : Gpio := mkGpio 2 GpioState.low GpioMode.output none none

def c5_g2 : Gpio := mkGpio 4 GpioState.low GpioMode.input (some 7) none

/-- Witness for C5: two init calls (one output pin, one input pin with a
callback) from the pristine backend produce exactly one platform install. -/
theorem C5_witness :
    (runInits (initSys hw0) [c5_g1, c5_g2]).hw.installCount
        = (if ([c5_g1, c5_g2] : List Gpio).isEmpty then 0 else 1)
      ∧ (runInits (initSys hw0) [c5_g1, c5_g2]).isr_service_installed
          = !([c5_g1, c5_g2] : List Gpio).isEmpty :=
  C5_install_at_most_once hw0 [c5_g1, c5_g2] (by decide)

/-! ## C6 -/

def c6_gpio : Gpio := mkGpio 4 GpioState.low GpioMode.input (some 7) (some 42)

/-- C6: an Input pin carrying a callback (handler address 7) and a non-NULL
callback argument (address 42) is initialized, yet the dispatch table entry
created by `gpio_init_impl` holds NULL (`none`) as the argument — line 92
of gpio_drivers.c passes `NULL` instead of `self->isr_handler_arg` to
`gpio_isr_handler_add`.  The caller-supplied argument is never registered,
contradicting the header's documentation of `isr_handler_arg`. -/
theorem C6_code_evaluation :
    c6_gpio.isr_handler_arg = some 42
      ∧ (gpio_init_impl sys0 c6_gpio).2.hw.isrTable = [(4, 7, none)] := by
  refine ⟨by decide, by decide⟩

/-! ## C7 -/

def c7_hw : HwState :=
  { hw0 with setLevelErr := fun p => if p = 3 then espFail else espOk }

def c7_gpio : Gpio := mkGpio 3 GpioState.low GpioMode.output none none

/-- C7: on a backend whose level-write primitive fails for pin 3 (reports
ESP_FAIL, line stays Low), `gpio_write` still returns ESP_OK — line 64
of gpio_drivers.c discards `gpio_set_level`'s result and line 65
unconditionally returns ESP_OK.  The failure is silently ignored,
contradicting the header's documentation of `set_state`. -/
theorem C7_code_evaluation :
    c7_hw.setLevelErr 3 = espFail
      ∧ (gpio_write c7_hw c7_gpio GpioState.high).1 = espOk
      ∧ (gpio_write c7_hw c7_gpio GpioState.high).2.2.level 3
          = GpioState.low := by
  refine ⟨by decide, by decide, by decide⟩

/-! ## C8 -/

def c8_gpio : Gpio := mkGpio 9 GpioState.low (GpioMode.other 5) none none

/-- C8 counterexample: initializing a pin whose mode is neither Input nor
Output does not fail with an error result — `gpio_init_impl` is void, so
nothing is returned to the caller — and setup proceeds: the ISR service is
installed (counter 0 to 1, trace gains the install call).  The claim that
configure returns InvalidMode instead of proceeding is false on the code. -/
theorem C8_counterexample :
    c8_gpio.mode = GpioMode.other 5
      ∧ (gpio_init_impl sys0 c8_gpio).2.hw.installCount = 1
      ∧ (gpio_init_impl sys0 c8_gpio).2.hw.trace
          = [BackendCall.installIsrService 0] := by
  refine ⟨by decide, by decide, by decide⟩

/-- C8 amended: for a mode outside {Input, Output}, `gpio_init_impl` only
logs an error: it performs no pin-configuration backend call (levels and
the dispatch table are untouched, and the only backend call in the trace is
the ISR-service install when the flag was still false), and it returns no
error to the caller — the function's return type is void. -/
theorem C8_invalid_mode_logs_and_proceeds (s : Sys) (g : Gpio) (n : Nat)
    (hm : g.mode = GpioMode.other n) :
    (gpio_init_impl s g).2.hw.trace
        = s.hw.trace ++ (if s.isr_service_installed then []
                         else [BackendCall.installIsrService 0])
      ∧ (gpio_init_impl s g).2.hw.level = s.hw.level
      ∧ (gpio_init_impl s g).2.hw.isrTable = s.hw.isrTable := by
  rw [init_impl_eq]
  have hsw : init_impl_hw_after_switch s
      { g with get_state := FnPtr.gpioRead, set_state := FnPtr.gpioWrite }
        = s.hw := by
    unfold init_impl_hw_after_switch
    simp [hm]
  by_cases h : s.isr_service_installed <;>
    simp [h, hsw, gpio_install_isr_service]

/-- Witness for C8: the amended theorem applied to a pin with mode value 5
(neither GPIO_MODE_INPUT nor GPIO_MODE_OUTPUT) at process start. -/
theorem C8_witness :
    (gpio_init_impl sys0 c8_gpio).2.hw.trace
        = sys0.hw.trace ++ (if sys0.isr_service_installed then []
                            else [BackendCall.installIsrService 0])
      ∧ (gpio_init_impl sys0 c8_gpio).2.hw.level = sys0.hw.level
      ∧ (gpio_init_impl sys0 c8_gpio).2.hw.isrTable = sys0.hw.isrTable :=
  C8_invalid_mode_logs_and_proceeds sys0 c8_gpio 5 (by decide)

/-! ## C9 -/

/-- C9: for every Output pin, when the platform level-write succeeds,
`gpio_init_impl` configures the pin and immediately writes `_act_state`
(the declared initial state), so a `gpio_read` right after initialization
returns exactly that declared initial state. -/
theorem C9_output_initial_state (s : Sys) (g : Gpio)
    (hm : g.mode = GpioMode.output)
    (hok : s.hw.setLevelErr g.pin = espOk) :
    (gpio_read (gpio_init_impl s g).2.hw (gpio_init_impl s g).1).1
      = g.act_state := by
  unfold gpio_init_impl gpio_read gpio_get_level gpio_set_config_output
    gpio_write gpio_set_level gpio_install_isr_service
  by_cases hi : s.isr_service_installed <;>
    cases ha : g.act_state <;>
      simp [hm, hi, hok, GpioState.toNat]

def c9_gpio : Gpio := mkGpio 2 GpioState.high GpioMode.output none none

/-- Witness for C9: the built-in LED pin initialized as output with
declared initial state High reads back High. -/
theorem C9_witness :
    (gpio_read (gpio_init_impl sys0 c9_gpio).2.hw
        (gpio_init_impl sys0 c9_gpio).1).1 = c9_gpio.act_state :=
  C9_output_initial_state sys0 c9_gpio (by decide) (by decide)

/-! ## C10 -/

/-- C10: every `gpio_init_impl` call assigns `get_state` (to `gpio_read`)
and `set_state` (to `gpio_write`) but never assigns the `toggle`
function-pointer field, which keeps exactly the value it held before the
call (the assignment on line 85 of gpio_drivers.c is commented out), so
the member is never wired to `gpio_toggle` by initialization. -/
theorem C10_toggle_field_never_assigned (s : Sys) (g : Gpio) :
    (gpio_init_impl s g).1.get_state = FnPtr.gpioRead
      ∧ (gpio_init_impl s g).1.set_state = FnPtr.gpioWrite
      ∧ (gpio_init_impl s g).1.toggle = g.toggle := by
  rw [init_impl_eq]
  by_cases h : s.isr_service_installed <;> simp [h]

end GpioDrivers
